import Mathlib

set_option maxRecDepth 100000

/-!
Verification of the natural-language-to-SQL pipeline of the SQL_Chatbot
repository (`app.py`).  The Python source is shallowly embedded: questions
and SQL statements are lists of characters, the validator, the fallback
generator and the `/chat` orchestration are translated function by
function, and the external collaborators (completion service, storage
engine) are parameters.
-/

/-- Python `str.isspace`-style whitespace characters, as used by
`str.strip` and by the regex class `\s` (ASCII range). -/
def pyWs (c : Char) : Bool :=
  c = ' ' || c = '\t' || c = '\n' || c = '\r' || c = '\x0b' || c = '\x0c'

/-- Embedding of Python `str.strip()`: drop leading and trailing
whitespace. -/
def strip (s : List Char) : List Char :=
  ((s.dropWhile pyWs).reverse.dropWhile pyWs).reverse

/-- Embedding of Python `str.upper()` (ASCII letters). -/
def upper (s : List Char) : List Char := s.map Char.toUpper

/-- Embedding of Python `str.lower()` (ASCII letters). -/
def lower (s : List Char) : List Char := s.map Char.toLower

/-- Embedding of the Python substring test `needle in hay`. -/
def containsSub (needle : List Char) : List Char → Bool
  | [] => needle.isEmpty
  | c :: rest => needle.isPrefixOf (c :: rest) || containsSub needle rest

/-- The `dangerous_keywords` list of `validate_sql_query` (app.py lines
279-282), in source order. -/
def dangerous_keywords : List String :=
  ["DROP", "DELETE", "INSERT", "UPDATE", "ALTER", "CREATE", "TRUNCATE",
   "EXEC", "EXECUTE", "REPLACE", "MERGE", "PRAGMA", "ATTACH", "DETACH"]

/-- The per-keyword test of app.py line 285:
`f' {keyword} ' in f' {query_upper} ' or query_upper.startswith(f'{keyword} ')`. -/
def keywordHits (qUpper : List Char) (kw : String) : Bool :=
  containsSub (' ' :: (kw.toList ++ [' '])) (' ' :: (qUpper ++ [' ']))
    || (kw.toList ++ [' ']).isPrefixOf qUpper

/-- The keyword loop of app.py lines 284-286: the first dangerous keyword
that hits, if any. -/
def containsForbidden (qUpper : List Char) : Option String :=
  dangerous_keywords.find? (keywordHits qUpper)

/-- Prefix test for the alternation `(DROP|DELETE|INSERT|UPDATE)` of the
first injection regex. -/
def isMutKw (l : List Char) : Bool :=
  ("DROP".toList).isPrefixOf l || ("DELETE".toList).isPrefixOf l
    || ("INSERT".toList).isPrefixOf l || ("UPDATE".toList).isPrefixOf l

/-- Regex `\s*` followed by a continuation `p`: holds when `p` matches
after skipping some (possibly zero) whitespace characters. -/
def wsThen (p : List Char → Bool) : List Char → Bool
  | [] => p []
  | c :: rest => p (c :: rest) || (pyWs c && wsThen p rest)

/-- Regex `.*` followed by a continuation `p`: in Python `.` does not
match a newline, so `p` must match after skipping non-newline
characters. -/
def dotStarThen (p : List Char → Bool) : List Char → Bool
  | [] => p []
  | c :: rest => p (c :: rest) || (c != '\n' && dotStarThen p rest)

/-- `re.search` existence: the matcher `p` fires at some position. -/
def searchAt (p : List Char → Bool) : List Char → Bool
  | [] => p []
  | c :: rest => p (c :: rest) || searchAt p rest

/-- Position matcher for the injection regex `;\s*(DROP|DELETE|INSERT|UPDATE)`. -/
def pSemiMut : List Char → Bool
  | ';' :: rest => wsThen isMutKw rest
  | _ => false

/-- Position matcher for the injection regex `--` (inline comment). -/
def pDashDash (l : List Char) : Bool := ("--".toList).isPrefixOf l

/-- Position matcher for the injection regex `/\*.*\*/` (block comment). -/
def pBlock : List Char → Bool
  | '/' :: '*' :: rest => dotStarThen (fun t => ("*/".toList).isPrefixOf t) rest
  | _ => false

/-- Position matcher for the injection regex `UNION.*SELECT`. -/
def pUnionSelect (l : List Char) : Bool :=
  ("UNION".toList).isPrefixOf l
    && dotStarThen (fun t => ("SELECT".toList).isPrefixOf t) (l.drop 5)

/-- Position matcher for the tautology tail `1\s*=\s*1`. -/
def pOneEqOne : List Char → Bool
  | '1' :: rest =>
      wsThen (fun t =>
        match t with
        | '=' :: r2 =>
            wsThen (fun u =>
              match u with
              | '1' :: _ => true
              | _ => false) r2
        | _ => false) rest
  | _ => false

/-- Position matcher for the injection regex `OR.*1\s*=\s*1`. -/
def pOrTaut (l : List Char) : Bool :=
  ("OR".toList).isPrefixOf l && dotStarThen pOneEqOne (l.drop 2)

/-- Position matcher for the injection regex `AND.*1\s*=\s*1`. -/
def pAndTaut (l : List Char) : Bool :=
  ("AND".toList).isPrefixOf l && dotStarThen pOneEqOne (l.drop 3)

/-- The injection-pattern loop of app.py lines 289-300: some pattern of
the `injection_patterns` list matches the uppercased query. -/
def injectionDetected (qUpper : List Char) : Bool :=
  searchAt pSemiMut qUpper || searchAt pDashDash qUpper
    || searchAt pBlock qUpper || searchAt pUnionSelect qUpper
    || searchAt pOrTaut qUpper || searchAt pAndTaut qUpper

/-- The reason part of the `(bool, message)` pair that
`validate_sql_query` returns; each constructor corresponds to one of the
literal message strings of the source. -/
inductive Verdict where
  | emptyQuery : Verdict
  | nonSelect : Verdict
  | forbiddenKeyword : String → Verdict
  | injection : Verdict
  | passed : Verdict
deriving DecidableEq

/-- Embedding of `SecureLocalChatbot.validate_sql_query` (app.py lines
267-302): empty check, SELECT-prefix check on the stripped uppercased
query, dangerous-keyword loop, injection-pattern loop. -/
def validate_sql_query (query : List Char) : Bool × Verdict :=
  if (strip query).isEmpty then (false, Verdict.emptyQuery)
  else
    let qUpper := upper (strip query)
    if !(("SELECT".toList).isPrefixOf qUpper) then (false, Verdict.nonSelect)
    else
      match containsForbidden qUpper with
      | some kw => (false, Verdict.forbiddenKeyword kw)
      | none =>
          if injectionDetected qUpper then (false, Verdict.injection)
          else (true, Verdict.passed)

example : (validate_sql_query (("SELECT * FROM customers").toList)).1 = true := by decide
example : validate_sql_query (("SELECT").toList) = (true, Verdict.passed) := by decide
example : (validate_sql_query (("DROP TABLE customers").toList)).2 = Verdict.nonSelect := by decide
example : (validate_sql_query (("SELECT * FROM x WHERE a = b -- c").toList)).2 = Verdict.injection := by decide
example : (validate_sql_query (("SELECT DROP FROM x").toList)).2 = Verdict.forbiddenKeyword "DROP" := by decide
example : (validate_sql_query (("SELECT x FROM t UNION SELECT y FROM u").toList)).2 = Verdict.injection := by decide
example : (validate_sql_query (("SELECT * FROM t WHERE x = 1 OR 1=1").toList)).2 = Verdict.injection := by decide
example : (validate_sql_query ([' '] )).2 = Verdict.emptyQuery := by decide

/-- The apostrophe character, used to assemble the SQL string literals of
the fallback table. -/
def apos : Char := Char.ofNat 39

/-- Canned statement `SELECT * FROM customers WHERE status = 'active'`. -/
def sql_active_customers : List Char :=
  ("SELECT * FROM customers WHERE status = ").toList
    ++ apos :: ("active").toList ++ [apos]

/-- Canned statement `SELECT * FROM customers`. -/
def sql_all_customers : List Char := ("SELECT * FROM customers").toList

/-- Canned statement counting customers. -/
def sql_count_customers : List Char :=
  ("SELECT COUNT(*) as customer_count FROM customers").toList

/-- Canned statement listing orders, newest first. -/
def sql_all_orders : List Char :=
  ("SELECT * FROM orders ORDER BY order_date DESC").toList

/-- Canned statement counting orders. -/
def sql_count_orders : List Char :=
  ("SELECT COUNT(*) as order_count FROM orders").toList

/-- Canned statement `SELECT * FROM products WHERE category = 'Electronics'`. -/
def sql_electronics_products : List Char :=
  ("SELECT * FROM products WHERE category = ").toList
    ++ apos :: ("Electronics").toList ++ [apos]

/-- Canned statement `SELECT * FROM products`. -/
def sql_all_products : List Char := ("SELECT * FROM products").toList

/-- Canned statement `SELECT * FROM employees WHERE status = 'active'`. -/
def sql_active_employees : List Char :=
  ("SELECT * FROM employees WHERE status = ").toList
    ++ apos :: ("active").toList ++ [apos]

/-- Canned statement summing Electronics revenue. -/
def sql_electronics_revenue : List Char :=
  ("SELECT SUM(total_amount) as total_revenue FROM orders WHERE category = ").toList
    ++ apos :: ("Electronics").toList ++ [apos]

/-- Canned top-customers-by-spend statement. -/
def sql_top_customers : List Char :=
  ("SELECT c.name, c.email, SUM(o.total_amount) as total_spent FROM customers c JOIN orders o ON c.id = o.customer_id GROUP BY c.id, c.name, c.email ORDER BY total_spent DESC LIMIT 5").toList

/-- Trigger of app.py line 391: `any(keyword in question_lower for keyword
in ['all customers', 'show customers', 'list customers'])`. -/
def cust_list_trigger (ql : List Char) : Bool :=
  containsSub (("all customers").toList) ql
    || containsSub (("show customers").toList) ql
    || containsSub (("list customers").toList) ql

/-- Trigger of app.py line 396: `'count customers'` / `'how many customers'`. -/
def cust_count_trigger (ql : List Char) : Bool :=
  containsSub (("count customers").toList) ql
    || containsSub (("how many customers").toList) ql

/-- Trigger of app.py line 399: `'all orders'` / `'show orders'` / `'list orders'`. -/
def orders_list_trigger (ql : List Char) : Bool :=
  containsSub (("all orders").toList) ql
    || containsSub (("show orders").toList) ql
    || containsSub (("list orders").toList) ql

/-- Trigger of app.py line 402: `'count orders'` / `'how many orders'`. -/
def orders_count_trigger (ql : List Char) : Bool :=
  containsSub (("count orders").toList) ql
    || containsSub (("how many orders").toList) ql

/-- Trigger of app.py line 405: `'all products'` / `'show products'` / `'list products'`. -/
def products_list_trigger (ql : List Char) : Bool :=
  containsSub (("all products").toList) ql
    || containsSub (("show products").toList) ql
    || containsSub (("list products").toList) ql

/-- Trigger of app.py line 410: `'all employees'` / `'show employees'` / `'list employees'`. -/
def employees_list_trigger (ql : List Char) : Bool :=
  containsSub (("all employees").toList) ql
    || containsSub (("show employees").toList) ql
    || containsSub (("list employees").toList) ql

/-- Trigger of app.py line 413: `'revenue' in question_lower and
'electronics' in question_lower`. -/
def revenue_trigger (ql : List Char) : Bool :=
  containsSub (("revenue").toList) ql && containsSub (("electronics").toList) ql

/-- Trigger of app.py line 416: `'top' in question_lower and 'customers'
in question_lower`. -/
def top_customers_trigger (ql : List Char) : Bool :=
  containsSub (("top").toList) ql && containsSub (("customers").toList) ql

/-- Embedding of `SecureLocalChatbot.generate_fallback_sql` (app.py lines
386-421): lowercase the question, walk the `if/elif` trigger chain in
source order, return the first matching canned statement, `none` (Python
`None`) when nothing matches. -/
def generate_fallback_sql (user_question : List Char) : Option (List Char) :=
  let ql := lower user_question
  if cust_list_trigger ql then
    if containsSub (("active").toList) ql then some sql_active_customers
    else some sql_all_customers
  else if cust_count_trigger ql then some sql_count_customers
  else if orders_list_trigger ql then some sql_all_orders
  else if orders_count_trigger ql then some sql_count_orders
  else if products_list_trigger ql then
    if containsSub (("electronics").toList) ql then some sql_electronics_products
    else some sql_all_products
  else if employees_list_trigger ql then some sql_active_employees
  else if revenue_trigger ql then some sql_electronics_revenue
  else if top_customers_trigger ql then some sql_top_customers
  else none

example : generate_fallback_sql (("Show all customers").toList) = some sql_all_customers := by decide
example : generate_fallback_sql (("show customers that are active").toList) = some sql_active_customers := by decide
example : generate_fallback_sql (("hello world").toList) = none := by decide
example : generate_fallback_sql (("List employees please").toList) = some sql_active_employees := by decide
example : generate_fallback_sql (("How many orders were placed?").toList) = some sql_count_orders := by decide
example : generate_fallback_sql (("top customers").toList) = some sql_top_customers := by decide

/-- Suffix test on character lists. -/
def endsWith (suffix s : List Char) : Bool :=
  suffix.reverse.isPrefixOf s.reverse

/-- Drop the last `n` characters. -/
def dropLastN (n : Nat) (s : List Char) : List Char :=
  s.take (s.length - n)

/-- Embedding of `re.sub(r'^```sql\n?', '', s)` (app.py line 374): remove
one leading code-fence opener, greedily taking the optional newline. -/
def stripFenceOpen (s : List Char) : List Char :=
  if (("```sql").toList ++ ['\n']).isPrefixOf s then s.drop 7
  else if (("```sql").toList).isPrefixOf s then s.drop 6
  else s

/-- Embedding of `re.sub(r'\n?```$', '', s)` (app.py line 375): remove one
trailing code-fence closer; Python `$` also matches just before a single
trailing newline. -/
def stripFenceClose (s : List Char) : List Char :=
  if endsWith ['\n'] s then
    let u := dropLastN 1 s
    if endsWith ('\n' :: ("```").toList) u then dropLastN 4 u ++ ['\n']
    else if endsWith (("```").toList) u then dropLastN 3 u ++ ['\n']
    else s
  else
    if endsWith ('\n' :: ("```").toList) s then dropLastN 4 s
    else if endsWith (("```").toList) s then dropLastN 3 s
    else s

/-- The response clean-up of app.py lines 371-376: strip the raw
completion text, remove code-fence markers, strip again. -/
def sanitize (raw : List Char) : List Char :=
  strip (stripFenceClose (stripFenceOpen (strip raw)))

/-- State of the completion collaborator for one request: the global
`groq_client` is `None` (`unconfigured`), or the call raises
(`raises`), or the call returns raw text (`returns`). -/
inductive GroqState where
  | unconfigured : GroqState
  | raises : GroqState
  | returns : List Char → GroqState
deriving DecidableEq

/-- Embedding of `SecureLocalChatbot.generate_sql_from_natural_language`
(app.py lines 334-384), instrumented with call counts: the result
candidate, the number of completion-service calls made, and the number of
`generate_fallback_sql` calls made. -/
def generate_sql_from_natural_language (groq : GroqState)
    (user_question : List Char) : Option (List Char) × Nat × Nat :=
  match groq with
  | GroqState.unconfigured => (generate_fallback_sql user_question, 0, 1)
  | GroqState.raises => (generate_fallback_sql user_question, 1, 1)
  | GroqState.returns raw => (some (sanitize raw), 1, 0)

/-- Python truthiness of the generated candidate, as tested by
`if not sql_query:` in the `/chat` endpoint: `None` and the empty string
are both falsy. -/
def pyFalsy : Option (List Char) → Bool
  | none => true
  | some s => s.isEmpty

/-- The constant `suggestion` field of the generation-failure response
(app.py line 519). -/
def suggestionText : List Char :=
  ("Try asking: \"Show all customers\" or \"How many orders were placed?\"").toList

/-- Outcomes of the `/chat` endpoint (app.py lines 485-560), abstracted
from their JSON envelope.  `R` is the type of execution results returned
by the storage collaborator. -/
inductive ChatResponse (R : Type) where
  | invalidJson : ChatResponse R
  | emptyMessage : ChatResponse R
  | generationFailed : Bool → List Char → ChatResponse R
  | validationFailed : Verdict → List Char → ChatResponse R
  | executionFailed : List Char → List Char → ChatResponse R
  | success : List Char → R → ChatResponse R
deriving DecidableEq

/-- Per-request invocation counts of the pipeline components, used to
state which components run on each path. -/
structure Trace where
  modelCalls : Nat
  fallbackCalls : Nat
  validateCalls : Nat
  executeCalls : Nat
deriving DecidableEq

/-- Embedding of the `/chat` endpoint (app.py lines 485-560).  The
message is `none` when the request body carries no JSON data; `db` is the
storage collaborator used by the execution step, returning either rows or
an engine error message. -/
def chat {R : Type} (groq : GroqState) (db : List Char → Except (List Char) R)
    (message : Option (List Char)) : ChatResponse R × Trace :=
  match message with
  | none => (ChatResponse.invalidJson, ⟨0, 0, 0, 0⟩)
  | some msg =>
      let user_message := strip msg
      if user_message.isEmpty then (ChatResponse.emptyMessage, ⟨0, 0, 0, 0⟩)
      else
        match generate_sql_from_natural_language groq user_message with
        | (sqlq, mc, fc) =>
          if pyFalsy sqlq then
            (ChatResponse.generationFailed
              (match groq with
               | GroqState.unconfigured => true
               | _ => false) suggestionText, ⟨mc, fc, 0, 0⟩)
          else
            let s := sqlq.getD []
            match validate_sql_query s with
            | (ok, verdict) =>
              if !ok then (ChatResponse.validationFailed verdict s, ⟨mc, fc, 1, 0⟩)
              else
                match db s with
                | Except.error e => (ChatResponse.executionFailed e s, ⟨mc, fc, 1, 1⟩)
                | Except.ok r => (ChatResponse.success s r, ⟨mc, fc, 1, 1⟩)

example :
    chat GroqState.unconfigured (fun _ => (Except.ok 0 : Except (List Char) Nat))
      (some (("  ").toList)) = (ChatResponse.emptyMessage, ⟨0, 0, 0, 0⟩) := by decide

example :
    chat GroqState.unconfigured (fun _ => (Except.ok 0 : Except (List Char) Nat))
      (some (("hello").toList))
      = (ChatResponse.generationFailed true suggestionText, ⟨0, 1, 0, 0⟩) := by decide

example :
    chat (GroqState.returns (("DROP TABLE customers").toList))
      (fun _ => (Except.ok 0 : Except (List Char) Nat))
      (some (("please drop it").toList))
      = (ChatResponse.validationFailed Verdict.nonSelect (("DROP TABLE customers").toList),
         ⟨1, 0, 1, 0⟩) := by decide

example :
    chat (GroqState.returns (("SELECT 1").toList))
      (fun _ => (Except.ok 7 : Except (List Char) Nat))
      (some (("anything").toList))
      = (ChatResponse.success (("SELECT 1").toList) 7, ⟨1, 0, 1, 1⟩) := by decide

/-- Abstract interface to Python float primitives used by the result
formatter: `str(value)` and `round(value, 2)`.  The binary floating-point
semantics itself is left abstract; only the control structure of the
formatter depends on it. -/
structure FloatOps (F : Type) where
  toStr : F → List Char
  round2 : F → F

/-- Values a result cell can hold, following the Python/SQLite value
kinds distinguished by `isinstance(value, float)` in `execute_query`. -/
inductive SqlValue (F : Type) where
  | intv : Int → SqlValue F
  | floatv : F → SqlValue F
  | textv : List Char → SqlValue F
  | nullv : SqlValue F
deriving DecidableEq

/-- The inner loop of `execute_query` (app.py lines 319-321): for each
key/value of a row, replace a float whose `str` contains a dot by its
2-decimal rounding, leave every other value untouched. -/
def format_row {F : Type} (ops : FloatOps F) :
    List (String × SqlValue F) → List (String × SqlValue F)
  | [] => []
  | (k, v) :: rest =>
      (match v with
       | SqlValue.floatv x =>
           if containsSub ['.'] (ops.toStr x) then (k, SqlValue.floatv (ops.round2 x))
           else (k, v)
       | _ => (k, v)) :: format_row ops rest

/-- The outer loop of `execute_query` (app.py lines 315-322): build the
formatted row list in order. -/
def execute_format {F : Type} (ops : FloatOps F) :
    List (List (String × SqlValue F)) → List (List (String × SqlValue F))
  | [] => []
  | r :: rest => format_row ops r :: execute_format ops rest

/-- Embedding of `SecureLocalChatbot.execute_query` (app.py lines
304-332): run the statement on the storage collaborator, format the rows
on success, wrap the engine message on failure. -/
def execute_query {F : Type} (ops : FloatOps F)
    (db : List Char → Except (List Char) (List (List (String × SqlValue F))))
    (sql_query : List Char) :
    Except (List Char) (List (List (String × SqlValue F))) :=
  match db sql_query with
  | Except.error e => Except.error (("Database error: ").toList ++ e)
  | Except.ok rows => Except.ok (execute_format ops rows)

/-- Relation, written from the spec sentence of claim C6, between an
input cell and the corresponding output cell: a float whose decimal
string contains a dot is rounded to two decimals, everything else is
placed unchanged. -/
def roundingSpecCell {F : Type} (ops : FloatOps F)
    (inp out : String × SqlValue F) : Prop :=
  out.1 = inp.1 ∧
    out.2 = match inp.2 with
            | SqlValue.floatv x =>
                if containsSub ['.'] (ops.toStr x) then SqlValue.floatv (ops.round2 x)
                else SqlValue.floatv x
            | w => w

/-- One entry of the fallback table: a trigger predicate on the lowercased
question and the canned statement it produces (the customers and products
entries consult the question again for their modifier branch). -/
def fallbackTable : List ((List Char → Bool) × (List Char → List Char)) :=
  [(cust_list_trigger, fun ql =>
      if containsSub (("active").toList) ql then sql_active_customers
      else sql_all_customers),
   (cust_count_trigger, fun _ => sql_count_customers),
   (orders_list_trigger, fun _ => sql_all_orders),
   (orders_count_trigger, fun _ => sql_count_orders),
   (products_list_trigger, fun ql =>
      if containsSub (("electronics").toList) ql then sql_electronics_products
      else sql_all_products),
   (employees_list_trigger, fun _ => sql_active_employees),
   (revenue_trigger, fun _ => sql_electronics_revenue),
   (top_customers_trigger, fun _ => sql_top_customers)]

/-- First-match lookup over an ordered trigger table, written from the
spec sentence of claim C4: triggers are tested in table order and the
first match wins. -/
def firstMatch : List ((List Char → Bool) × (List Char → List Char)) →
    List Char → Option (List Char)
  | [], _ => none
  | (trig, tmpl) :: rest, ql =>
      if trig ql then some (tmpl ql) else firstMatch rest ql

/-- Claim C5: for the question "Show all customers" (matched
case-insensitively, with no occurrence of "active") the fallback
generator returns exactly `SELECT * FROM customers`, and
`validate_sql_query` accepts that statement. -/
theorem fallback_show_all_customers_accepted :
    generate_fallback_sql (("Show all customers").toList) = some sql_all_customers
      ∧ containsSub (("active").toList) (lower (("Show all customers").toList)) = false
      ∧ validate_sql_query sql_all_customers = (true, Verdict.passed) := by
  refine ⟨by decide, by decide, by decide⟩

/-- Claim C7: the validator does not special-case the exact candidate
"SELECT": the embedded `validate_sql_query` consists only of the generic
rules, under which the candidate is accepted (non-empty, begins with
SELECT, no forbidden keyword as a delimited token, no injection pattern);
a rejection of this candidate can then only come from the storage engine
at execution time, as witnessed by the chat pipeline reaching the
execution step with it. -/
theorem validator_accepts_bare_select :
    validate_sql_query (("SELECT").toList) = (true, Verdict.passed)
      ∧ ("SELECT".toList).isPrefixOf (upper (strip (("SELECT").toList))) = true
      ∧ containsForbidden (upper (strip (("SELECT").toList))) = none
      ∧ injectionDetected (upper (strip (("SELECT").toList))) = false
      ∧ (chat (GroqState.returns (("SELECT").toList))
           (fun _ => (Except.error (("syntax error").toList) : Except (List Char) Nat))
           (some (("show me").toList))).1
          = ChatResponse.executionFailed (("syntax error").toList) (("SELECT").toList) := by
  refine ⟨by decide, by decide, by decide, by decide, by decide⟩

/-- Claim C4: `generate_fallback_sql` is a pure deterministic function of
the question: it equals a first-match lookup over the fixed, ordered
trigger table applied to the lowercased question, so triggers are tested
in a fixed order, the first matching trigger wins, and two invocations
with the same question return the identical statement or the identical
no-match signal. -/
theorem fallback_is_first_match_of_fixed_table :
    ∀ q : List Char, generate_fallback_sql q = firstMatch fallbackTable (lower q) := by
  intro q
  simp only [generate_fallback_sql, fallbackTable, firstMatch]
  split_ifs <;> rfl

/-- Claim C1: if `validate_sql_query` accepts a candidate, then the
whitespace-trimmed uppercased candidate starts with SELECT, none of the
14 forbidden keywords occurs as a space-delimited token (string start and
end counting as delimiters via the added surrounding spaces, or as the
leading token followed by a space), and none of the injection heuristics
(semicolon followed by a mutating keyword, inline comment marker, block
comment, UNION..SELECT, OR/AND 1=1 tautology) matches. -/
theorem validator_accept_implies_guards :
    ∀ q : List Char, (validate_sql_query q).1 = true →
      ("SELECT".toList).isPrefixOf (upper (strip q)) = true
      ∧ (∀ kw ∈ dangerous_keywords,
           containsSub (' ' :: (kw.toList ++ [' '])) (' ' :: (upper (strip q) ++ [' '])) = false
           ∧ (kw.toList ++ [' ']).isPrefixOf (upper (strip q)) = false)
      ∧ searchAt pSemiMut (upper (strip q)) = false
      ∧ searchAt pDashDash (upper (strip q)) = false
      ∧ searchAt pBlock (upper (strip q)) = false
      ∧ searchAt pUnionSelect (upper (strip q)) = false
      ∧ searchAt pOrTaut (upper (strip q)) = false
      ∧ searchAt pAndTaut (upper (strip q)) = false := by
  intro q h
  simp only [validate_sql_query] at h
  split at h
  · simp at h
  · split at h
    · simp at h
    · rename_i hS
      split at h
      · simp at h
      · rename_i hF
        split at h
        · simp at h
        · rename_i hI
          rw [Bool.not_eq_true, Bool.not_eq_false'] at hS
          rw [Bool.not_eq_true] at hI
          rw [containsForbidden] at hF
          have hkw := List.find?_eq_none.mp hF
          simp only [injectionDetected, Bool.or_eq_false_iff] at hI
          refine ⟨hS, ?_, hI.1.1.1.1.1, hI.1.1.1.1.2, hI.1.1.1.2, hI.1.1.2, hI.1.2, hI.2⟩
          intro kw hmem
          have hk := hkw kw hmem
          rw [Bool.not_eq_true] at hk
          simp only [keywordHits, Bool.or_eq_false_iff] at hk
          exact hk

/-- Concrete instantiation of the C1 guarantee at an accepted candidate. -/
theorem validator_accept_implies_guards_witness :
    ("SELECT".toList).isPrefixOf (upper (strip (("SELECT * FROM customers").toList))) = true :=
  (validator_accept_implies_guards (("SELECT * FROM customers").toList) (by decide)).1

/-- Claim C9: for a candidate that reaches the keyword stage (its
stripped uppercased form starts with SELECT), `validate_sql_query`
reports a forbidden-keyword rejection exactly when some forbidden keyword
occurs space-delimited in the uppercased candidate (the string ends
counting as delimiters via the surrounding added spaces) or as the
leading token followed by a space; a keyword occurring only inside a
longer identifier such as CREATED_DATE, or separated by tabs instead of
spaces, does not trigger it, as the two concrete accepted candidates
show. -/
theorem forbidden_keyword_rejection_characterization :
    (∀ q : List Char, ("SELECT".toList).isPrefixOf (upper (strip q)) = true →
       ((∃ kw, validate_sql_query q = (false, Verdict.forbiddenKeyword kw)) ↔
        (∃ kw ∈ dangerous_keywords,
           containsSub (' ' :: (kw.toList ++ [' '])) (' ' :: (upper (strip q) ++ [' '])) = true
           ∨ (kw.toList ++ [' ']).isPrefixOf (upper (strip q)) = true)))
    ∧ validate_sql_query (("SELECT * FROM products WHERE created_date > 0").toList)
        = (true, Verdict.passed)
    ∧ validate_sql_query (("SELECT x\tDROP\ty FROM t").toList)
        = (true, Verdict.passed) := by
  refine ⟨?_, by decide, by decide⟩
  intro q hSel
  have hne : (strip q).isEmpty = false := by
    rcases hq : strip q with _ | ⟨a, l⟩
    · rw [hq] at hSel
      simp [upper] at hSel
    · rfl
  constructor
  · rintro ⟨kw, hv⟩
    simp only [validate_sql_query, hne, hSel] at hv
    rcases hF : containsForbidden (upper (strip q)) with _ | kw2
    · rw [hF] at hv
      rcases hI : injectionDetected (upper (strip q)) <;> simp [hI] at hv
    · rw [containsForbidden] at hF
      have hmem := List.mem_of_find?_eq_some hF
      have hp := List.find?_some hF
      refine ⟨kw2, hmem, ?_⟩
      rw [keywordHits, Bool.or_eq_true] at hp
      exact hp
  · rintro ⟨kw, hmem, hcond⟩
    have hkw : keywordHits (upper (strip q)) kw = true := by
      rw [keywordHits, Bool.or_eq_true]
      exact hcond
    have hsome : (containsForbidden (upper (strip q))).isSome = true := by
      rw [containsForbidden, List.find?_isSome]
      exact ⟨kw, hmem, hkw⟩
    rcases hF : containsForbidden (upper (strip q)) with _ | kw0
    · rw [hF] at hsome
      simp at hsome
    · refine ⟨kw0, ?_⟩
      simp [validate_sql_query, hne, hSel, hF]
      exact List.isPrefixOf_iff_prefix.mp hSel

/-- Concrete instantiation of the C9 characterization: a statement with a
space-delimited DROP is reported as a forbidden-keyword rejection. -/
theorem forbidden_keyword_rejection_characterization_witness :
    ∃ kw, validate_sql_query (("SELECT DROP FROM t").toList)
      = (false, Verdict.forbiddenKeyword kw) :=
  (forbidden_keyword_rejection_characterization.1
      (("SELECT DROP FROM t").toList) (by decide)).mpr
    ⟨"DROP", by decide, Or.inl (by decide)⟩

/-- Every canned statement of the fallback table is a non-empty string:
the no-match signal `none` is therefore distinguishable from every
successful result. -/
theorem fallback_never_empty :
    ∀ q s, generate_fallback_sql q = some s → s ≠ [] := by
  intro q s h
  rw [generate_fallback_sql] at h
  split_ifs at h <;>
    first
      | exact Option.noConfusion h
      | (injection h with h2; subst h2; decide)

/-- In every run of the chat endpoint on a non-empty message, the final
trace carries exactly the completion-call and fallback-call counts of the
generation step. -/
theorem chat_trace_counts (R : Type) (groq : GroqState)
    (db : List Char → Except (List Char) R) (msg : List Char)
    (h : (strip msg).isEmpty = false) :
    ((chat groq db (some msg)).2.modelCalls, (chat groq db (some msg)).2.fallbackCalls)
      = ((generate_sql_from_natural_language groq (strip msg)).2.1,
         (generate_sql_from_natural_language groq (strip msg)).2.2) := by
  simp only [chat, h]
  rcases hg : generate_sql_from_natural_language groq (strip msg) with ⟨sqlq, mc, fc⟩
  simp only [Bool.false_eq_true, if_false]
  split
  · rfl
  · split
    · rfl
    · split <;> rfl

/-- Claim C10: a question (lowercased) matching the employees listing
trigger but none of the five earlier triggers yields
`SELECT * FROM employees WHERE status = 'active'` — filtered to active
employees — while the analogous customers, orders and products listing
triggers yield unfiltered listings when no modifier phrase occurs. -/
theorem employees_listing_filters_active_only :
    (∀ q : List Char, employees_list_trigger (lower q) = true →
       cust_list_trigger (lower q) = false → cust_count_trigger (lower q) = false →
       orders_list_trigger (lower q) = false → orders_count_trigger (lower q) = false →
       products_list_trigger (lower q) = false →
       generate_fallback_sql q = some sql_active_employees)
    ∧ (∀ q : List Char, cust_list_trigger (lower q) = true →
         containsSub (("active").toList) (lower q) = false →
         generate_fallback_sql q = some sql_all_customers)
    ∧ (∀ q : List Char, orders_list_trigger (lower q) = true →
         cust_list_trigger (lower q) = false → cust_count_trigger (lower q) = false →
         generate_fallback_sql q = some sql_all_orders)
    ∧ (∀ q : List Char, products_list_trigger (lower q) = true →
         cust_list_trigger (lower q) = false → cust_count_trigger (lower q) = false →
         orders_list_trigger (lower q) = false → orders_count_trigger (lower q) = false →
         containsSub (("electronics").toList) (lower q) = false →
         generate_fallback_sql q = some sql_all_products) := by
  refine ⟨?_, ?_, ?_, ?_⟩
  · intro q h1 h2 h3 h4 h5 h6
    simp [generate_fallback_sql, h1, h2, h3, h4, h5, h6]
  · intro q h1 h2
    have h2x : containsSub (['a', 'c', 't', 'i', 'v', 'e']) (lower q) = false := h2
    simp [generate_fallback_sql, h1, h2x]
  · intro q h1 h2 h3
    simp [generate_fallback_sql, h1, h2, h3]
  · intro q h1 h2 h3 h4 h5 h6
    have h6x : containsSub (['e', 'l', 'e', 'c', 't', 'r', 'o', 'n', 'i', 'c', 's']) (lower q) = false := h6
    simp [generate_fallback_sql, h1, h2, h3, h4, h5, h6x]

/-- Concrete instantiation of the C10 employees branch. -/
theorem employees_listing_filters_active_only_witness :
    generate_fallback_sql (("show employees").toList) = some sql_active_employees :=
  employees_listing_filters_active_only.1 (("show employees").toList)
    (by decide) (by decide) (by decide) (by decide) (by decide) (by decide)

/-- Claim C8: a chat request whose message is empty or whitespace-only
after trimming fails with the empty-input error before SQL generation,
validation or execution runs: no pipeline component is invoked. -/
theorem empty_message_rejected_before_pipeline :
    ∀ (R : Type) (groq : GroqState) (db : List Char → Except (List Char) R)
      (msg : List Char), strip msg = [] →
      chat groq db (some msg) = (ChatResponse.emptyMessage, ⟨0, 0, 0, 0⟩) := by
  intro R groq db msg h
  simp [chat, h]

/-- Concrete instantiation of C8 at a whitespace-only message. -/
theorem empty_message_rejected_before_pipeline_witness :
    chat GroqState.unconfigured (fun _ => (Except.ok 0 : Except (List Char) Nat))
      (some ((" \t ").toList)) = (ChatResponse.emptyMessage, ⟨0, 0, 0, 0⟩) :=
  empty_message_rejected_before_pipeline Nat GroqState.unconfigured
    (fun _ => (Except.ok 0 : Except (List Char) Nat)) ((" \t ").toList) (by decide)

/-- Claim C3: when the completion client is unconfigured or the
completion call raises, the request is not aborted: the candidate is
produced by exactly one call of the deterministic fallback generator on
the (stripped) question, the no-match signal is `none` — distinguishable
from an empty string, since every canned statement is non-empty — and
when no trigger matches the outcome is the non-fatal generation failure
carrying the non-empty rephrasing suggestion, with neither validation nor
execution performed. -/
theorem adapter_failure_falls_back_once :
    ∀ (R : Type) (groq : GroqState) (db : List Char → Except (List Char) R)
      (msg : List Char),
      (groq = GroqState.unconfigured ∨ groq = GroqState.raises) →
      (strip msg).isEmpty = false →
      (generate_sql_from_natural_language groq (strip msg)).1
          = generate_fallback_sql (strip msg)
        ∧ (chat groq db (some msg)).2.fallbackCalls = 1
        ∧ (∀ s, generate_fallback_sql (strip msg) = some s → s ≠ [])
        ∧ suggestionText ≠ []
        ∧ (generate_fallback_sql (strip msg) = none →
             chat groq db (some msg)
               = (ChatResponse.generationFailed (groq == GroqState.unconfigured)
                    suggestionText,
                  ⟨(generate_sql_from_natural_language groq (strip msg)).2.1, 1, 0, 0⟩)) := by
  intro R groq db msg hg hne
  have hfb := chat_trace_counts R groq db msg hne
  rcases hg with hg | hg <;> subst hg
  · refine ⟨rfl, ?_, fallback_never_empty (strip msg), by decide, ?_⟩
    · have h2 : (chat GroqState.unconfigured db (some msg)).2.fallbackCalls
          = (generate_sql_from_natural_language GroqState.unconfigured (strip msg)).2.2 :=
        congrArg Prod.snd hfb
      simpa [generate_sql_from_natural_language] using h2
    · intro hf
      simp [chat, hne, generate_sql_from_natural_language, hf, pyFalsy]
  · refine ⟨rfl, ?_, fallback_never_empty (strip msg), by decide, ?_⟩
    · have h2 : (chat GroqState.raises db (some msg)).2.fallbackCalls
          = (generate_sql_from_natural_language GroqState.raises (strip msg)).2.2 :=
        congrArg Prod.snd hfb
      simpa [generate_sql_from_natural_language] using h2
    · intro hf
      simp [chat, hne, generate_sql_from_natural_language, hf, pyFalsy]

/-- Concrete instantiation of C3: unconfigured client, a question with no
fallback trigger, outcome is the generation failure with the suggestion
and an untouched validator and executor. -/
theorem adapter_failure_falls_back_once_witness :
    chat GroqState.unconfigured (fun _ => (Except.ok 0 : Except (List Char) Nat))
        (some (("tell me a joke").toList))
      = (ChatResponse.generationFailed true suggestionText, ⟨0, 1, 0, 0⟩) :=
  ((adapter_failure_falls_back_once Nat GroqState.unconfigured
      (fun _ => (Except.ok 0 : Except (List Char) Nat)) (("tell me a joke").toList)
      (Or.inl rfl) (by decide)).2.2.2.2 (by decide))

/-- Counterexample to claim C2: in a request where the model path
produces the candidate `DROP TABLE customers` and the validator rejects
it, the request terminates with the validation failure and the fallback
generator is invoked zero times, not exactly once. -/
theorem model_rejection_no_fallback_cex :
    (chat (GroqState.returns (("DROP TABLE customers").toList))
        (fun _ => (Except.ok 0 : Except (List Char) Nat))
        (some (("remove the customers table").toList))).1
      = ChatResponse.validationFailed Verdict.nonSelect (("DROP TABLE customers").toList)
    ∧ (chat (GroqState.returns (("DROP TABLE customers").toList))
        (fun _ => (Except.ok 0 : Except (List Char) Nat))
        (some (("remove the customers table").toList))).2.fallbackCalls = 0
    ∧ ¬ (chat (GroqState.returns (("DROP TABLE customers").toList))
        (fun _ => (Except.ok 0 : Except (List Char) Nat))
        (some (("remove the customers table").toList))).2.fallbackCalls = 1 := by
  refine ⟨by decide, by decide, by decide⟩

/-- Claim C2 as amended: when the model path produces a candidate (a
non-empty sanitized completion) that the validator rejects, the request
terminates with that validation failure, the fallback generator is never
invoked (zero transitions, not one), and the model path is not retried
(exactly one completion call). -/
theorem model_rejection_terminates_without_fallback :
    ∀ (R : Type) (db : List Char → Except (List Char) R) (raw msg : List Char),
      (strip msg).isEmpty = false →
      (sanitize raw).isEmpty = false →
      (validate_sql_query (sanitize raw)).1 = false →
      chat (GroqState.returns raw) db (some msg)
        = (ChatResponse.validationFailed (validate_sql_query (sanitize raw)).2
             (sanitize raw),
           ⟨1, 0, 1, 0⟩) := by
  intro R db raw msg h1 h2 h3
  simp [chat, generate_sql_from_natural_language, pyFalsy, h1, h2, h3]

/-- Concrete instantiation of the amended C2. -/
theorem model_rejection_terminates_without_fallback_witness :
    chat (GroqState.returns (("DROP TABLE customers").toList))
        (fun _ => (Except.ok 0 : Except (List Char) Nat))
        (some (("drop it").toList))
      = (ChatResponse.validationFailed Verdict.nonSelect
           (("DROP TABLE customers").toList), ⟨1, 0, 1, 0⟩) :=
  (model_rejection_terminates_without_fallback Nat
      (fun _ => (Except.ok 0 : Except (List Char) Nat))
      (("DROP TABLE customers").toList) (("drop it").toList)
      (by decide) (by decide) (by decide)).trans (by decide)

/-- Each formatted cell of `format_row` satisfies the rounding relation
of claim C6. -/
theorem format_row_cells (F : Type) (ops : FloatOps F) :
    ∀ row : List (String × SqlValue F),
      List.Forall₂ (roundingSpecCell ops) row (format_row ops row) := by
  intro row
  induction row with
  | nil => exact List.Forall₂.nil
  | cons kv rest ih =>
      rcases kv with ⟨k, v⟩
      cases v with
      | floatv x =>
          by_cases hd : containsSub ['.'] (ops.toStr x) = true
          · refine List.Forall₂.cons ?_ ih
            simp [format_row, roundingSpecCell, hd]
          · refine List.Forall₂.cons ?_ ih
            simp [format_row, roundingSpecCell, hd]
      | intv i =>
          refine List.Forall₂.cons ?_ ih
          simp [format_row, roundingSpecCell]
      | textv s =>
          refine List.Forall₂.cons ?_ ih
          simp [format_row, roundingSpecCell]
      | nullv =>
          refine List.Forall₂.cons ?_ ih
          simp [format_row, roundingSpecCell]

/-- Claim C6: on every successful `execute_query`, each output row is the
input row transformed cell-wise: a float value whose decimal string
contains a dot is replaced by its two-decimal rounding, every other value
(integer, text, null, or float without a dot in its string form) is
placed unchanged. -/
theorem execute_query_rounding :
    ∀ (F : Type) (ops : FloatOps F)
      (db : List Char → Except (List Char) (List (List (String × SqlValue F))))
      (sql : List Char) (raws fmts : List (List (String × SqlValue F))),
      db sql = Except.ok raws →
      execute_query ops db sql = Except.ok fmts →
      List.Forall₂ (List.Forall₂ (roundingSpecCell ops)) raws fmts := by
  intro F ops db sql raws fmts h1 h2
  rw [execute_query, h1] at h2
  cases h2
  clear h1
  induction raws with
  | nil => exact List.Forall₂.nil
  | cons r rest ih => exact List.Forall₂.cons (format_row_cells F ops r) ih

/-- Concrete float model for the C6 instantiation: a float whose string
form is `3.14` and whose two-decimal rounding adds 100, making the
rounding visible. -/
def witnessFloatOps : FloatOps Nat :=
  ⟨fun _ => ("3.14").toList, fun n => n + 100⟩

/-- Concrete storage collaborator for the C6 instantiation. -/
def witnessDb : List Char → Except (List Char) (List (List (String × SqlValue Nat))) :=
  fun _ => Except.ok [[("price", SqlValue.floatv 3), ("name", SqlValue.textv (("x").toList))]]

/-- Concrete instantiation of C6: the float cell is rounded, the text
cell passes through unchanged. -/
theorem execute_query_rounding_witness :
    List.Forall₂ (List.Forall₂ (roundingSpecCell witnessFloatOps))
      [[("price", SqlValue.floatv 3), ("name", SqlValue.textv (("x").toList))]]
      [[("price", SqlValue.floatv 103), ("name", SqlValue.textv (("x").toList))]] :=
  execute_query_rounding Nat witnessFloatOps witnessDb
    (("SELECT price, name FROM products").toList)
    [[("price", SqlValue.floatv 3), ("name", SqlValue.textv (("x").toList))]]
    [[("price", SqlValue.floatv 103), ("name", SqlValue.textv (("x").toList))]]
    rfl rfl
